import Mathlib

/-!
Verification of the threshold-sweep aggregation in `table_weather` /
`table_forecast` (src/app.py), the `forecast` guard (src/app.py), and the city
preprocessing script (src/process-data.py) of the heatpump-dashboard
repository.

The embedding models real-valued observations as `Option ℚ` (`none` models a
missing `NaN` value, matching IEEE-754 comparison semantics where `NaN < t` is
false), Python integers as `Int`, and Python's fallible division
(`ZeroDivisionError`) as an `Except` value.
-/

set_option maxRecDepth 40000

namespace HeatpumpDashboard

/-- An observation value: `some v` is an ordinary measurement, `none` is a
missing (`NaN`) value, as produced upstream of `table_weather`. -/
abbrev Obs := Option ℚ

/-- `df["y"] < temp` for a single cell: a `NaN` cell compares false against
every threshold (IEEE-754), an ordinary cell compares with strict `<`. -/
def ltNaN (x : Obs) (t : Int) : Bool :=
  match x with
  | none => false
  | some v => decide (v < (t : ℚ))

/-- `df[df["y"] < temp].shape[0]` — the number of observations strictly below
the threshold `t` (src/app.py line 284). -/
def countBelow (obs : List Obs) (t : Int) : Nat :=
  (obs.filter (fun x => ltNaN x t)).length

/-- Error conditions relevant to the profiling loop. `zeroDivision` models
Python's `ZeroDivisionError` raised by `days_below / df.shape[0]` when
`df.shape[0] = 0`; `emptyInput` models the distinct `EmptyInputError`
condition named by the specification (the code never produces it). -/
inductive ProfError where
  | emptyInput
  | zeroDivision
  deriving DecidableEq, Repr

/-- One row `[temp, days_below, proportion_below]` of the table built by
`table_weather` / `table_forecast`. -/
structure Row where
  temp : Int
  daysBelow : Nat
  propBelow : ℚ
  deriving DecidableEq, Repr

/-- One iteration of the loop at src/app.py lines 283-286: count the days
below `t` and divide by `df.shape[0]` (the total row count, `NaN` rows
included). Division by zero raises `ZeroDivisionError`. -/
def buildRow (obs : List Obs) (t : Int) : Except ProfError Row :=
  if obs.length = 0 then Except.error ProfError.zeroDivision
  else Except.ok ⟨t, countBelow obs t, (countBelow obs t : ℚ) / (obs.length : ℚ)⟩

/-- The whole loop `for temp in range(min_temp, max_temp)`, appending one row
per threshold and aborting at the first raised error. -/
def buildRows (obs : List Obs) : List Int → Except ProfError (List Row)
  | [] => Except.ok []
  | t :: ts =>
    match buildRow obs t, buildRows obs ts with
    | Except.error e, _ => Except.error e
    | Except.ok _, Except.error e => Except.error e
    | Except.ok r, Except.ok rs => Except.ok (r :: rs)

/-- `range(min_temp, max_temp)` with `max_temp = input.temp_range()[1] + 1`:
the integers `low, low+1, ..., high` in ascending order (empty when
`high < low`), as at src/app.py lines 280-283. -/
def threshList (low high : Int) : List Int :=
  (List.range (high + 1 - low).toNat).map (fun (i : Nat) => low + (i : Int))

/-- Round-half-to-even on an exact rational, the tie rule used by
`pandas.Series.round`. -/
def roundHalfEven (q : ℚ) : Int :=
  if q - ⌊q⌋ < 1 / 2 then ⌊q⌋
  else if 1 / 2 < q - ⌊q⌋ then ⌊q⌋ + 1
  else if ⌊q⌋ % 2 = 0 then ⌊q⌋ else ⌊q⌋ + 1

/-- `.round(3)` on one cell: round to 3 decimal places. -/
def round3 (q : ℚ) : ℚ := (roundHalfEven (q * 1000) : ℚ) / 1000

/-- The comparator realising `sort_values(by="Temp", ascending=False)`. -/
def descTemp (a b : Row) : Bool := decide (b.temp ≤ a.temp)

/-- The body of `table_weather` (src/app.py lines 277-290): build one row per
threshold in `range(min_temp, max_temp)`, sort by `Temp` descending, then
round the `Proportion Below` column to 3 decimals and return the table. -/
def table_weather (obs : List Obs) (low high : Int) : Except ProfError (List Row) :=
  match buildRows obs (threshList low high) with
  | Except.error e => Except.error e
  | Except.ok rows =>
    Except.ok ((rows.mergeSort descTemp).map (fun r => { r with propBelow := round3 r.propBelow }))

/-- The body of `table_forecast` (src/app.py lines 315-329): the identical
aggregation applied to the `yhat_lower` series of the forecast. -/
def table_forecast (yhatLower : List Obs) (low high : Int) : Except ProfError (List Row) :=
  table_weather yhatLower low high

/-- Result of the `forecast` reactive computation: the Prophet model fit and
prediction are an external library call, modelled as a record of the series
the model was fitted on. -/
structure ForecastOutput where
  fitted : List Obs
  deriving DecidableEq

/-- The `forecast` calc (src/app.py lines 292-301): `req(df.shape[0] > 364)`
halts the computation (no output) unless the series has strictly more than
364 rows; only then is the model fitted. -/
def forecast (df : List Obs) : Option ForecastOutput :=
  if 364 < df.length then some ⟨df⟩ else none

/-- One row of the raw `uscities.csv` input of src/process-data.py, after the
first column selection (line 4). -/
structure RawCity where
  city : String
  county_name : String
  state_name : String
  population : Int
  lat : ℚ
  lng : ℚ
  deriving DecidableEq, Repr

/-- One row of the produced `data/cities.csv`: exactly the columns
`city_state`, `lat`, `lng` (src/process-data.py line 7). -/
structure CityRow where
  city_state : String
  lat : ℚ
  lng : ℚ
  deriving DecidableEq, Repr

/-- src/process-data.py lines 5-7: keep the rows with `population > 9999`,
form `city_state = city + ", " + state_name`, keep columns
`city_state, lat, lng`. -/
def process_data (rows : List RawCity) : List CityRow :=
  (rows.filter (fun r => decide (9999 < r.population))).map
    (fun r => ⟨r.city ++ ", " ++ r.state_name, r.lat, r.lng⟩)

/-! ## Helper definitions and lemmas -/

/-- The row built for threshold `t` inside the loop, before display
rounding. -/
def rawRow (obs : List Obs) (t : Int) : Row :=
  ⟨t, countBelow obs t, (countBelow obs t : ℚ) / (obs.length : ℚ)⟩

/-- The row for threshold `t` as it appears in the returned table, after the
`Proportion Below` column has been rounded to 3 decimals. -/
def finalRow (obs : List Obs) (t : Int) : Row :=
  ⟨t, countBelow obs t, round3 ((countBelow obs t : ℚ) / (obs.length : ℚ))⟩

/-- The strict descending-temperature order on rows. -/
abbrev rowGT (a b : Row) : Prop := b.temp < a.temp

instance : IsAntisymm Row rowGT :=
  ⟨fun _ _ h1 h2 => absurd (lt_trans h1 h2) (lt_irrefl _)⟩

lemma countBelow_perm {obs obs' : List Obs} (h : obs.Perm obs') (t : Int) :
    countBelow obs t = countBelow obs' t :=
  (h.filter _).length_eq

lemma buildRow_of_ne_nil {obs : List Obs} (h : obs ≠ []) (t : Int) :
    buildRow obs t = Except.ok (rawRow obs t) := by
  rw [buildRow, if_neg]
  · rfl
  · simpa using h

lemma buildRows_of_ne_nil {obs : List Obs} (h : obs ≠ []) (ts : List Int) :
    buildRows obs ts = Except.ok (ts.map (rawRow obs)) := by
  induction ts with
  | nil => rfl
  | cons t ts ih =>
    rw [buildRows, buildRow_of_ne_nil h, ih]
    rfl

lemma buildRows_nil_cons (t : Int) (ts : List Int) :
    buildRows [] (t :: ts) = Except.error ProfError.zeroDivision := by
  rw [buildRows, buildRow]
  simp

lemma buildRow_perm {obs obs' : List Obs} (h : obs.Perm obs') (t : Int) :
    buildRow obs t = buildRow obs' t := by
  rw [buildRow, buildRow, h.length_eq, countBelow_perm h]

lemma buildRows_perm {obs obs' : List Obs} (h : obs.Perm obs') (ts : List Int) :
    buildRows obs ts = buildRows obs' ts := by
  induction ts with
  | nil => rfl
  | cons t ts ih => rw [buildRows, buildRows, buildRow_perm h, ih]

lemma table_weather_perm {obs obs' : List Obs} (h : obs.Perm obs') (low high : Int) :
    table_weather obs low high = table_weather obs' low high := by
  rw [table_weather, table_weather, buildRows_perm h]

lemma threshList_pairwise (low high : Int) :
    (threshList low high).Pairwise (· < ·) := by
  rw [threshList, List.pairwise_map]
  refine (List.pairwise_lt_range _).imp ?_
  intro a b hij
  omega

lemma threshList_length (low high : Int) :
    (threshList low high).length = (high + 1 - low).toNat := by
  rw [threshList, List.length_map, List.length_range]

lemma mem_threshList {low high t : Int} :
    t ∈ threshList low high ↔ low ≤ t ∧ t ≤ high := by
  rw [threshList]
  simp only [List.mem_map, List.mem_range]
  constructor
  · rintro ⟨i, hi, rfl⟩
    constructor
    · omega
    · omega
  · rintro ⟨h1, h2⟩
    refine ⟨(t - low).toNat, by omega, by omega⟩

lemma threshList_eq_nil {low high : Int} (h : high < low) :
    threshList low high = [] := by
  rw [threshList]
  have : (high + 1 - low).toNat = 0 := by omega
  rw [this]
  rfl

lemma mergeSort_descTemp_eq_reverse (l : List Row)
    (h : l.Pairwise (fun a b => a.temp < b.temp)) :
    l.mergeSort descTemp = l.reverse := by
  have htrans : ∀ a b c : Row, descTemp a b → descTemp b c → descTemp a c := by
    intro a b c hab hbc
    simp only [descTemp, decide_eq_true_eq] at *
    exact le_trans hbc hab
  have htotal : ∀ a b : Row, descTemp a b || descTemp b a := by
    intro a b
    simp only [descTemp, Bool.or_eq_true, decide_eq_true_eq]
    exact le_total b.temp a.temp
  have hperm : List.Perm (l.mergeSort descTemp) l := List.mergeSort_perm l descTemp
  have hsorted := List.sorted_mergeSort htrans htotal l
  have hne : (l.mergeSort descTemp).Pairwise (fun a b => a.temp ≠ b.temp) := by
    refine (List.Perm.pairwise_iff (fun hxy => hxy.symm) hperm).2 ?_
    exact h.imp (fun hab => ne_of_lt hab)
  have hstrict : (l.mergeSort descTemp).Pairwise rowGT := by
    refine (hsorted.and hne).imp ?_
    rintro a b ⟨hle, hab⟩
    simp only [descTemp, decide_eq_true_eq] at hle
    exact lt_of_le_of_ne hle (Ne.symm hab)
  have hrev : l.reverse.Pairwise rowGT := by
    rw [List.pairwise_reverse]
    exact h
  exact List.eq_of_perm_of_sorted (hperm.trans (List.reverse_perm l).symm) hstrict hrev

lemma table_weather_closed (obs : List Obs) (low high : Int) (h : obs ≠ []) :
    table_weather obs low high =
      Except.ok ((threshList low high).reverse.map (finalRow obs)) := by
  rw [table_weather, buildRows_of_ne_nil h]
  have hpw : ((threshList low high).map (rawRow obs)).Pairwise
      (fun a b => a.temp < b.temp) := by
    rw [List.pairwise_map]
    exact (threshList_pairwise low high).imp (fun hab => hab)
  dsimp only
  rw [mergeSort_descTemp_eq_reverse _ hpw, ← List.map_reverse, List.map_map]
  rfl

lemma table_weather_nil_ok {low high : Int} {rows : List Row}
    (h : table_weather [] low high = Except.ok rows) : rows = [] := by
  rcases hts : threshList low high with _ | ⟨t, ts⟩
  · rw [table_weather, hts] at h
    simp only [buildRows, List.mergeSort_nil, List.map_nil] at h
    exact (Except.ok.inj h).symm
  · rw [table_weather, hts, buildRows_nil_cons] at h
    exact absurd h (by simp)

lemma table_weather_ok_chain {obs : List Obs} {low high : Int} {rows : List Row}
    (h : table_weather obs low high = Except.ok rows) :
    rows.Chain' (fun r s => s.temp < r.temp) := by
  rcases obs with _ | ⟨x, obs⟩
  · rw [table_weather_nil_ok h]
    exact List.chain'_nil
  · rw [table_weather_closed _ low high (by simp)] at h
    rw [← Except.ok.inj h]
    apply List.Pairwise.chain'
    rw [List.pairwise_map, List.pairwise_reverse]
    exact (threshList_pairwise low high).imp (fun hab => hab)

lemma ok_inj {ε β : Type} {a b : β} (h : a = b) :
    (Except.ok a : Except ε β) = Except.ok b := by
  rw [h]

lemma except_map_ok {ε α β : Type} (f : α → β) (a : α) :
    Except.map f (Except.ok a : Except ε α) = Except.ok (f a) := rfl

/-! ## Claims -/

/-- Claim C1, counterexample: for observations `[5, 15, 25]` and threshold
`t = 20` we have `count_below = 2` and `total = 3`, but the returned row
carries `0.667`, not `2/3`: the component rounds to 3 decimals (line 289)
before returning its table, so the returned proportion is not exactly
`count_below / total`. -/
theorem C1_counterexample :
    table_weather [some 5, some 15, some 25] 20 20 = Except.ok [⟨20, 2, 667 / 1000⟩] ∧
      countBelow [some 5, some 15, some 25] 20 = 2 ∧
      ([some 5, some 15, some 25] : List Obs).length = 3 ∧
      (667 / 1000 : ℚ) ≠ 2 / 3 := by
  refine ⟨?_, by decide, by decide, by with_unfolding_all decide⟩
  rw [table_weather_closed _ _ _ (by simp)]
  exact ok_inj (by with_unfolding_all decide)

/-- Claim C1 (amended): in every row of the returned table, `Days Below`
equals `count_below(t)` exactly, and `Proportion Below` equals
`count_below(t) / total_observations` rounded to 3 decimal places — the
rounding at src/app.py line 289 (and line 327 for `table_forecast`, which is
the same aggregation) is applied by the component before it returns its
table. -/
theorem C1_amended (obs : List Obs) (low high : Int) (rows : List Row) (r : Row)
    (h : table_weather obs low high = Except.ok rows) (hr : r ∈ rows) :
    r.daysBelow = countBelow obs r.temp ∧
      r.propBelow = round3 ((countBelow obs r.temp : ℚ) / (obs.length : ℚ)) := by
  rcases obs with _ | ⟨x, obs⟩
  · rw [table_weather_nil_ok h] at hr
    exact absurd hr (List.not_mem_nil r)
  · rw [table_weather_closed _ low high (by simp)] at h
    rw [← Except.ok.inj h] at hr
    rcases List.mem_map.1 hr with ⟨t, _, rfl⟩
    exact ⟨rfl, rfl⟩

/-- Witness for C1 (amended) at observations `[5, 15, 25]`, range `[20, 20]`. -/
theorem C1_amended_witness :
    (2 : Nat) = countBelow [some 5, some 15, some 25] 20 ∧
      (667 / 1000 : ℚ) = round3 ((countBelow [some 5, some 15, some 25] 20 : ℚ) /
        (([some 5, some 15, some 25] : List Obs).length : ℚ)) :=
  C1_amended [some 5, some 15, some 25] 20 20 [⟨20, 2, 667 / 1000⟩] ⟨20, 2, 667 / 1000⟩
    (by rw [table_weather_closed _ _ _ (by simp)]
        exact ok_inj (by with_unfolding_all decide))
    (by simp)

/-- Claim C2, counterexample: for observations `[NaN, 5]` and threshold 10,
the single `NaN` is correctly kept out of the numerator (`count_below = 1`),
but the denominator is `df.shape[0] = 2`, which still counts the `NaN` row:
the returned proportion is `1/2`, whereas excluding `NaN` from
`total_observations` (1 non-missing value) would give `1`. -/
theorem C2_counterexample :
    table_weather [none, some 5] 10 10 = Except.ok [⟨10, 1, 1 / 2⟩] ∧
      countBelow [none, some 5] 10 = 1 ∧
      (([none, some 5] : List Obs).filter (fun x => x.isSome)).length = 1 ∧
      (1 / 2 : ℚ) ≠ 1 / 1 := by
  refine ⟨?_, by decide, by decide, by with_unfolding_all decide⟩
  rw [table_weather_closed _ _ _ (by simp)]
  exact ok_inj (by with_unfolding_all decide)

/-- Claim C2 (amended): a `NaN` observation is never counted in
`count_below(t)`, but it is not excluded from the denominator: the proportion
divides by the full row count `df.shape[0]`, so adding a `NaN` observation
leaves the numerator unchanged while growing the denominator by one. -/
theorem C2_amended (obs : List Obs) (t : Int) :
    countBelow (none :: obs) t = countBelow obs t ∧
      buildRow (none :: obs) t =
        Except.ok ⟨t, countBelow obs t, (countBelow obs t : ℚ) / ((obs.length : ℚ) + 1)⟩ := by
  have hc : countBelow (none :: obs) t = countBelow obs t := by
    rw [countBelow, countBelow, List.filter_cons_of_neg (by simp [ltNaN])]
  refine ⟨hc, ?_⟩
  rw [buildRow, if_neg (by simp), hc, List.length_cons, Nat.cast_add_one]

/-- Claim C3, counterexample: on an empty observation series with the swept
range `[0, 10]`, the code raises the generic division-by-zero failure
(`ZeroDivisionError` from `days_below / df.shape[0]`), not a distinct
`EmptyInputError` condition. -/
theorem C3_counterexample :
    table_weather [] 0 10 = Except.error ProfError.zeroDivision ∧
      ProfError.zeroDivision ≠ ProfError.emptyInput := by
  exact ⟨rfl, by decide⟩

/-- Claim C3 (amended): for every threshold range with `low ≤ high`, invoking
the profiling operation on an empty observation series raises a generic
division-by-zero failure (`ZeroDivisionError`), rather than a distinct
`EmptyInputError` condition, `NaN`, or a silently-zero value. -/
theorem C3_amended (low high : Int) (h : low ≤ high) :
    table_weather [] low high = Except.error ProfError.zeroDivision := by
  rcases hts : threshList low high with _ | ⟨t, ts⟩
  · have hmem : low ∈ threshList low high := mem_threshList.2 ⟨le_refl low, h⟩
    rw [hts] at hmem
    exact absurd hmem (List.not_mem_nil low)
  · rw [table_weather, hts, buildRows_nil_cons]

/-- Witness for C3 (amended) at the range `[-3, 4]`. -/
theorem C3_amended_witness :
    table_weather [] (-3) 4 = Except.error ProfError.zeroDivision :=
  C3_amended (-3) 4 (by decide)

/-- Claim C4, counterexample: with an empty observation series and
`low = high = 0`, the profiling operation does not return
`high - low + 1 = 1` rows — it raises `ZeroDivisionError`. -/
theorem C4_counterexample :
    table_weather [] 0 0 = Except.error ProfError.zeroDivision := rfl

/-- Claim C4 (amended): for every observation series with at least one row
and all integers `low ≤ high`, the profiling operation returns exactly
`high - low + 1` rows; and for every observation series (empty included),
when `low > high` it returns an empty profile with 0 rows instead of raising
an error. -/
theorem C4_amended (obs : List Obs) (low high : Int) :
    (obs ≠ [] → low ≤ high →
      Except.map List.length (table_weather obs low high) =
        Except.ok (high - low + 1).toNat) ∧
    (high < low → table_weather obs low high = Except.ok []) := by
  constructor
  · intro h hle
    rw [table_weather_closed _ _ _ h, except_map_ok]
    apply ok_inj
    rw [List.length_map, List.length_reverse, threshList_length]
    omega
  · intro hlt
    rw [table_weather, threshList_eq_nil hlt]
    show Except.ok ((List.mergeSort [] descTemp).map _) = _
    rw [List.mergeSort_nil]
    rfl

/-- Witness for C4 (amended): 3 rows for `[0, 2]` on a singleton series, and
0 rows (no error) for the inverted range `[5, 2]`. -/
theorem C4_amended_witness :
    Except.map List.length (table_weather [some 1] 0 2) =
        Except.ok ((2 : Int) - 0 + 1).toNat ∧
      table_weather [some 1] 5 2 = Except.ok [] :=
  ⟨(C4_amended [some 1] 0 2).1 (by simp) (by decide),
   (C4_amended [some 1] 5 2).2 (by decide)⟩

/-- Claim C5: whenever the profiling operation returns a table, its rows are
in strictly descending threshold order, and the result does not depend on the
order of the input observations (any permutation of the series yields the
same table). -/
theorem C5_ordering (obs obs' : List Obs) (low high : Int) (rows : List Row)
    (hp : List.Perm obs obs') (h : table_weather obs low high = Except.ok rows) :
    rows.Chain' (fun r s => s.temp < r.temp) ∧
      table_weather obs' low high = Except.ok rows := by
  refine ⟨table_weather_ok_chain h, ?_⟩
  rw [← table_weather_perm hp]
  exact h

/-- Witness for C5 at observations `[1, 2]` (and their swap), range `[0, 2]`. -/
theorem C5_ordering_witness :
    ([⟨2, 1, 1 / 2⟩, ⟨1, 0, 0⟩, ⟨0, 0, 0⟩] : List Row).Chain'
        (fun r s => s.temp < r.temp) ∧
      table_weather [some 2, some 1] 0 2 =
        Except.ok [⟨2, 1, 1 / 2⟩, ⟨1, 0, 0⟩, ⟨0, 0, 0⟩] :=
  C5_ordering [some 1, some 2] [some 2, some 1] 0 2 _
    (List.Perm.swap (some 2) (some 1) [])
    (by rw [table_weather_closed _ _ _ (by simp)]
        exact ok_inj (by with_unfolding_all decide))

/-- Claim C6: `count_below` uses strict `<`: an observation exactly equal to
the threshold is never counted, and for observations `[10, 10, 10]` with
threshold `t = 10` the count is 0. -/
theorem C6_strict_below (obs : List Obs) (t : Int) :
    countBelow (some (t : ℚ) :: obs) t = countBelow obs t ∧
      countBelow [some 10, some 10, some 10] 10 = 0 := by
  constructor
  · rw [countBelow, countBelow, List.filter_cons_of_neg (by simp [ltNaN])]
  · decide

/-- Claim C7: `count_below(t)` is monotonically non-decreasing in the
threshold: for `t1 < t2`, `count_below(t1) ≤ count_below(t2)`. -/
theorem C7_monotone (obs : List Obs) (t1 t2 : Int) (h : t1 < t2) :
    countBelow obs t1 ≤ countBelow obs t2 := by
  apply List.Sublist.length_le
  apply List.monotone_filter_right
  intro x hx
  rcases x with _ | v
  · exact absurd hx (by simp [ltNaN])
  · simp only [ltNaN, decide_eq_true_eq] at hx ⊢
    calc v < (t1 : ℚ) := hx
      _ ≤ (t2 : ℚ) := by exact_mod_cast le_of_lt h

/-- Witness for C7 at observations `[1]`, thresholds 0 and 5. -/
theorem C7_monotone_witness : countBelow [some 1] 0 ≤ countBelow [some 1] 5 :=
  C7_monotone [some 1] 0 5 (by decide)

/-- Claim C8: the profiling operation is a pure function of its inputs:
identical observation series and identical bounds always produce an identical
profile (referential transparency). -/
theorem C8_pure (obs1 obs2 : List Obs) (low1 low2 high1 high2 : Int)
    (h1 : obs1 = obs2) (h2 : low1 = low2) (h3 : high1 = high2) :
    table_weather obs1 low1 high1 = table_weather obs2 low2 high2 := by
  rw [h1, h2, h3]

/-- Witness for C8 at observations `[3]`, range `[0, 1]`. -/
theorem C8_pure_witness : table_weather [some 3] 0 1 = table_weather [some 3] 0 1 :=
  C8_pure [some 3] [some 3] 0 0 1 1 rfl rfl rfl

/-- Claim C9: the forecast computation runs exactly when the fetched series
has strictly more than 364 rows (`req(df.shape[0] > 364)`), and when it runs
the model is fitted on that series; for 364 rows or fewer no forecast output
is produced. -/
theorem C9_forecast_guard (df : List Obs) (out : ForecastOutput) :
    ((forecast df).isSome = decide (364 < df.length)) ∧
      (forecast df = some out → 364 < df.length ∧ out.fitted = df) := by
  constructor
  · rw [forecast]
    by_cases h : 364 < df.length
    · rw [if_pos h]
      simp [h]
    · rw [if_neg h]
      simp [h]
  · intro h
    rw [forecast] at h
    by_cases hl : 364 < df.length
    · rw [if_pos hl] at h
      exact ⟨hl, by rw [← Option.some.inj h]⟩
    · rw [if_neg hl] at h
      exact absurd h (by simp)

/-- Witness for C9 on a series of 365 rows. -/
theorem C9_forecast_guard_witness :
    364 < (List.replicate 365 (some 0 : Obs)).length ∧
      (ForecastOutput.mk (List.replicate 365 (some 0 : Obs))).fitted =
        List.replicate 365 (some 0 : Obs) :=
  (C9_forecast_guard (List.replicate 365 (some 0)) ⟨List.replicate 365 (some 0)⟩).2 rfl

/-- Claim C10: the city preprocessing script keeps exactly one output row per
input row with `population > 9999` (the output length equals the number of
such rows); every input city with `population > 9999` appears as the row
`⟨city ++ ", " ++ state_name, lat, lng⟩` (the output type `CityRow` has
exactly the columns `city_state`, `lat`, `lng`); and a city with
`population ≤ 9999` contributes nothing to the output wherever it sits. -/
theorem C10_process_data (rows rows1 rows2 : List RawCity) (r : RawCity) :
    ((process_data rows).length =
        (rows.filter (fun x => decide (9999 < x.population))).length) ∧
      (r ∈ rows → 9999 < r.population →
        CityRow.mk (r.city ++ ", " ++ r.state_name) r.lat r.lng ∈ process_data rows) ∧
      (r.population ≤ 9999 →
        process_data (rows1 ++ r :: rows2) = process_data (rows1 ++ rows2)) := by
  refine ⟨?_, ?_, ?_⟩
  · rw [process_data, List.length_map]
  · intro hmem hpop
    rw [process_data]
    exact List.mem_map.2 ⟨r, List.mem_filter.2 ⟨hmem, by simpa using hpop⟩, rfl⟩
  · intro hpop
    rw [process_data, process_data, List.filter_append, List.filter_append,
      List.filter_cons_of_neg (by simpa using hpop)]

/-- Witness for C10: a large city is kept with the concatenated name, a small
one is dropped. -/
theorem C10_process_data_witness :
    CityRow.mk ("Springfield" ++ ", " ++ "Illinois") 1 2 ∈
        process_data [⟨"Springfield", "Sangamon", "Illinois", 100000, 1, 2⟩] ∧
      process_data ([] ++ (⟨"Tiny", "Nowhere", "Iowa", 500, 3, 4⟩ : RawCity) :: []) =
        process_data ([] ++ []) :=
  ⟨(C10_process_data [⟨"Springfield", "Sangamon", "Illinois", 100000, 1, 2⟩] [] []
      ⟨"Springfield", "Sangamon", "Illinois", 100000, 1, 2⟩).2.1 (by simp) (by decide),
   (C10_process_data [] [] [] ⟨"Tiny", "Nowhere", "Iowa", 500, 3, 4⟩).2.2 (by decide)⟩

end HeatpumpDashboard
